import Mathlib

/-!
Verification of the prism-pacer visual-line detection and smoothing core.

The definitions below are shallow embeddings of the relevant JavaScript
source (src/content/pacer.js, src/content/main.js, and the Dimmer class).
Pixel coordinates are modelled as rationals; DOM-provided data (client
rectangles of text nodes, hit-test results, computed styles) appears as
explicit inputs, since it is the environment the code reads.
-/

namespace PrismPacer

/-- A DOMRect-style axis-aligned rectangle in viewport pixels:
`{left, top, width, height}` with derived `right`/`bottom`. -/
structure Rect where
  left : ℚ
  top : ℚ
  width : ℚ
  height : ℚ
deriving DecidableEq, Repr

def Rect.right (r : Rect) : ℚ := r.left + r.width

def Rect.bottom (r : Rect) : ℚ := r.top + r.height

/-- Vertical center of a rectangle, `rect.top + rect.height / 2`
(pacer.js line 458). -/
def Rect.midY (r : Rect) : ℚ := r.top + r.height / 2

/-- Block element geometry used by the preformatted override in
`getVisualLineRect` (pacer.js lines 487-495): its bounding client rect
and the computed left/right paddings. -/
structure BlockInfo where
  rect : Rect
  paddingLeft : ℚ
  paddingRight : ℚ
deriving DecidableEq, Repr

/-- `yTolerance = referenceHeight * 0.6` (pacer.js line 421). -/
def yTol (referenceHeight : ℚ) : ℚ := referenceHeight * (6 / 10)

/-- The rectangles kept by the per-rect loop of `Pacer.getVisualLineRect`
(pacer.js lines 454-464): zero-width or zero-height rects are skipped, and
a rect is kept when the distance between its vertical center and the
reference vertical center `referenceY + referenceHeight / 2` is at most
`yTolerance`.  `cand` is the list of client rects produced by the
TreeWalker over the block's text nodes. -/
def keptRects (cand : List Rect) (referenceY referenceHeight : ℚ) : List Rect :=
  cand.filter fun r =>
    !decide (r.width = 0) && !decide (r.height = 0) &&
      decide (|r.midY - (referenceY + referenceHeight / 2)| ≤ yTol referenceHeight)

/-- `foldl min` seeded at `x`: the JS code folds `Math.min` starting from
`Infinity`; over a nonempty list seeding at the first element is the same. -/
def foldMin (x : ℚ) (xs : List ℚ) : ℚ := xs.foldl min x

def foldMax (x : ℚ) (xs : List ℚ) : ℚ := xs.foldl max x

/-- `Pacer.getVisualLineRect` (pacer.js lines 419-503): filter the
candidate rects by vertical-center tolerance, return `null` when none
survive, otherwise union them into `(minLeft, minTop, maxRight, maxBottom)`;
for a preformatted block, `minLeft`/`maxRight` are overridden with the
block's padding-adjusted content edges. -/
def getVisualLineRect (block : BlockInfo) (cand : List Rect)
    (referenceY referenceHeight : ℚ) (isPreformatted : Bool) : Option Rect :=
  match keptRects cand referenceY referenceHeight with
  | [] => none
  | r :: rs =>
    let minLeft := foldMin r.left (rs.map Rect.left)
    let maxRight := foldMax r.right (rs.map Rect.right)
    let minTop := foldMin r.top (rs.map Rect.top)
    let maxBottom := foldMax r.bottom (rs.map Rect.bottom)
    let minLeft' := if isPreformatted then block.rect.left + block.paddingLeft else minLeft
    let maxRight' := if isPreformatted then block.rect.right - block.paddingRight else maxRight
    some ⟨minLeft', minTop, maxRight' - minLeft', maxBottom - minTop⟩

/-- `this.minLineWidth = 20` (pacer.js line 63). -/
def minLineWidth : ℚ := 20

/-- The caller-side acceptance test in `Pacer.handleMouseMove`
(pacer.js lines 215-223): the detected rect becomes the target only when
it is non-null and at least `minLineWidth` wide; otherwise the target is
cleared. -/
def acceptedTargetRect (textRect : Option Rect) : Option Rect :=
  match textRect with
  | some r => if minLineWidth ≤ r.width then some r else none
  | none => none

/-! ### Fold lemmas for the min/max envelope -/

theorem foldMin_le (x : ℚ) (xs : List ℚ) : ∀ y ∈ x :: xs, foldMin x xs ≤ y := by
  induction xs generalizing x with
  | nil => intro y hy; simp only [List.mem_singleton] at hy; simp [foldMin, hy]
  | cons a l ih =>
    intro y hy
    have h : foldMin x (a :: l) = foldMin (min x a) l := rfl
    rw [h]
    rcases hy with _ | ⟨_, hy⟩
    · exact le_trans (ih (min x a) _ (List.mem_cons_self _ _)) (min_le_left x a)
    · rcases hy with _ | ⟨_, hy⟩
      · exact le_trans (ih (min x a) _ (List.mem_cons_self _ _)) (min_le_right x a)
      · exact ih (min x a) y (List.mem_cons_of_mem _ hy)

theorem foldMin_mem (x : ℚ) (xs : List ℚ) : foldMin x xs ∈ x :: xs := by
  induction xs generalizing x with
  | nil => simp [foldMin]
  | cons a l ih =>
    have h : foldMin x (a :: l) = foldMin (min x a) l := rfl
    rw [h]
    rcases List.mem_cons.mp (ih (min x a)) with hm | hm
    · rcases min_choice x a with hc | hc
      · rw [hm, hc]; exact List.mem_cons_self _ _
      · rw [hm, hc]; exact List.mem_cons_of_mem _ (List.mem_cons_self _ _)
    · exact List.mem_cons_of_mem _ (List.mem_cons_of_mem _ hm)

theorem le_foldMax (x : ℚ) (xs : List ℚ) : ∀ y ∈ x :: xs, y ≤ foldMax x xs := by
  induction xs generalizing x with
  | nil => intro y hy; simp only [List.mem_singleton] at hy; simp [foldMax, hy]
  | cons a l ih =>
    intro y hy
    have h : foldMax x (a :: l) = foldMax (max x a) l := rfl
    rw [h]
    rcases hy with _ | ⟨_, hy⟩
    · exact le_trans (le_max_left x a) (ih (max x a) _ (List.mem_cons_self _ _))
    · rcases hy with _ | ⟨_, hy⟩
      · exact le_trans (le_max_right x a) (ih (max x a) _ (List.mem_cons_self _ _))
      · exact ih (max x a) y (List.mem_cons_of_mem _ hy)

theorem foldMax_mem (x : ℚ) (xs : List ℚ) : foldMax x xs ∈ x :: xs := by
  induction xs generalizing x with
  | nil => simp [foldMax]
  | cons a l ih =>
    have h : foldMax x (a :: l) = foldMax (max x a) l := rfl
    rw [h]
    rcases List.mem_cons.mp (ih (max x a)) with hm | hm
    · rcases max_choice x a with hc | hc
      · rw [hm, hc]; exact List.mem_cons_self _ _
      · rw [hm, hc]; exact List.mem_cons_of_mem _ (List.mem_cons_self _ _)
    · exact List.mem_cons_of_mem _ (List.mem_cons_of_mem _ hm)

/-- Membership characterization of the tolerance filter. -/
theorem mem_keptRects (cand : List Rect) (y h : ℚ) (r : Rect) :
    r ∈ keptRects cand y h ↔
      r ∈ cand ∧ r.width ≠ 0 ∧ r.height ≠ 0 ∧
        |r.midY - (y + h / 2)| ≤ yTol h := by
  simp only [keptRects, List.mem_filter, Bool.and_eq_true, Bool.not_eq_true',
    decide_eq_false_iff_not, decide_eq_true_eq]
  tauto

/-- Reduction of `getVisualLineRect` when the filter keeps nothing. -/
theorem getVisualLineRect_nil (block : BlockInfo) (cand : List Rect)
    (y h : ℚ) (pre : Bool) (hk : keptRects cand y h = []) :
    getVisualLineRect block cand y h pre = none := by
  unfold getVisualLineRect
  rw [hk]

/-- Reduction of `getVisualLineRect` when the filter keeps `r0 :: rs`. -/
theorem getVisualLineRect_cons (block : BlockInfo) (cand : List Rect)
    (y h : ℚ) (pre : Bool) (r0 : Rect) (rs : List Rect)
    (hk : keptRects cand y h = r0 :: rs) :
    getVisualLineRect block cand y h pre =
      some ⟨(if pre then block.rect.left + block.paddingLeft
              else foldMin r0.left (rs.map Rect.left)),
            foldMin r0.top (rs.map Rect.top),
            (if pre then block.rect.right - block.paddingRight
              else foldMax r0.right (rs.map Rect.right)) -
              (if pre then block.rect.left + block.paddingLeft
                else foldMin r0.left (rs.map Rect.left)),
            foldMax r0.bottom (rs.map Rect.bottom) -
              foldMin r0.top (rs.map Rect.top)⟩ := by
  unfold getVisualLineRect
  rw [hk]

theorem mem_map_of_mem_cons {f : Rect → ℚ} {r0 : Rect} {rs : List Rect}
    {k : Rect} (hk : k ∈ r0 :: rs) : f k ∈ f r0 :: rs.map f := by
  rcases List.mem_cons.mp hk with hk | hk
  · rw [hk]; exact List.mem_cons_self _ _
  · exact List.mem_cons_of_mem _ (List.mem_map_of_mem f hk)

theorem exists_mem_cons_of_mem_map {f : Rect → ℚ} {r0 : Rect} {rs : List Rect}
    {v : ℚ} (hv : v ∈ f r0 :: rs.map f) : ∃ k ∈ r0 :: rs, f k = v := by
  rcases List.mem_cons.mp hv with hv | hv
  · exact ⟨r0, List.mem_cons_self _ _, hv.symm⟩
  · obtain ⟨k, hk, hfk⟩ := List.mem_map.mp hv
    exact ⟨k, List.mem_cons_of_mem _ hk, hfk⟩

theorem acceptedTargetRect_width (o : Option Rect) (r : Rect)
    (h : acceptedTargetRect o = some r) : minLineWidth ≤ r.width := by
  cases o with
  | none => exact absurd h (by simp [acceptedTargetRect])
  | some t =>
    simp only [acceptedTargetRect] at h
    split at h
    · cases h; assumption
    · exact absurd h (by simp)

/-- C1 (amended): in `Pacer.getVisualLineRect`, a candidate rectangle with
nonzero width and height is included in the merged line exactly when the
distance between its vertical center and the *reference* vertical center
is at most `0.6 × referenceHeight`; the tolerance is measured against the
reference line, not pairwise between candidates.  Consequently any two
candidates each within tolerance of the reference end up in the one merged
line, which exists whenever some candidate is kept. -/
theorem kept_iff_within_reference_tolerance (block : BlockInfo) (pre : Bool)
    (cand : List Rect) (y h : ℚ) (R : Rect)
    (hmem : R ∈ cand) (hw : R.width ≠ 0) (hh : R.height ≠ 0) :
    (R ∈ keptRects cand y h ↔ |R.midY - (y + h / 2)| ≤ yTol h) ∧
    (R ∈ keptRects cand y h →
      ∃ m, getVisualLineRect block cand y h pre = some m) := by
  constructor
  · rw [mem_keptRects]; tauto
  · intro hR
    cases hk : keptRects cand y h with
    | nil => rw [hk] at hR; exact absurd hR (List.not_mem_nil R)
    | cons r0 rs => exact ⟨_, getVisualLineRect_cons block cand y h pre r0 rs hk⟩

/-- C1 witness: reference `{top:100, height:20}` (center 110, tolerance 12);
the rectangle with vertical center 120 is kept and yields a merged line. -/
theorem kept_iff_within_reference_tolerance_witness :
    ((⟨0, 115, 50, 10⟩ : Rect) ∈ keptRects [⟨0, 115, 50, 10⟩] 100 20 ↔
      |(⟨0, 115, 50, 10⟩ : Rect).midY - (100 + 20 / 2)| ≤ yTol 20) ∧
    ((⟨0, 115, 50, 10⟩ : Rect) ∈ keptRects [⟨0, 115, 50, 10⟩] 100 20 →
      ∃ m, getVisualLineRect ⟨⟨0, 0, 500, 500⟩, 0, 0⟩ [⟨0, 115, 50, 10⟩]
        100 20 false = some m) :=
  kept_iff_within_reference_tolerance ⟨⟨0, 0, 500, 500⟩, 0, 0⟩ false
    [⟨0, 115, 50, 10⟩] 100 20 ⟨0, 115, 50, 10⟩ (by norm_num) (by norm_num) (by norm_num)

/-- C1 counterexample: reference `{top:100, height:20}` gives center 110
and tolerance 12.  The two candidates have vertical centers 120 and 126:
their pairwise distance is 6 ≤ 12, yet the first is kept and the second is
excluded (its distance to the reference center is 16 > 12).  So the claim
read as a pairwise tolerance is false on the code. -/
theorem pairwise_tolerance_counterexample :
    |(⟨0, 115, 50, 10⟩ : Rect).midY - (⟨0, 121, 50, 10⟩ : Rect).midY| ≤ yTol 20 ∧
    (⟨0, 115, 50, 10⟩ : Rect) ∈
      keptRects [⟨0, 115, 50, 10⟩, ⟨0, 121, 50, 10⟩] 100 20 ∧
    (⟨0, 121, 50, 10⟩ : Rect) ∉
      keptRects [⟨0, 115, 50, 10⟩, ⟨0, 121, 50, 10⟩] 100 20 := by
  norm_num [keptRects, List.filter_cons, List.filter_nil, Rect.midY, yTol]

/-- C4: in the non-preformatted case, the merged rectangle returned by
`Pacer.getVisualLineRect` is the exact min/max envelope of the kept
rectangles: its left/top are lower bounds attained by some kept rect, and
its right/bottom are upper bounds attained by some kept rect; no padding
is added. -/
theorem merged_rect_is_envelope (block : BlockInfo) (cand : List Rect)
    (y h : ℚ) (r : Rect)
    (hres : getVisualLineRect block cand y h false = some r) :
    (∀ k ∈ keptRects cand y h,
        r.left ≤ k.left ∧ k.right ≤ r.right ∧ r.top ≤ k.top ∧ k.bottom ≤ r.bottom) ∧
    (∃ k ∈ keptRects cand y h, k.left = r.left) ∧
    (∃ k ∈ keptRects cand y h, k.right = r.right) ∧
    (∃ k ∈ keptRects cand y h, k.top = r.top) ∧
    (∃ k ∈ keptRects cand y h, k.bottom = r.bottom) := by
  cases hk : keptRects cand y h with
  | nil =>
    rw [getVisualLineRect_nil block cand y h false hk] at hres
    exact absurd hres (by simp)
  | cons r0 rs =>
    rw [getVisualLineRect_cons block cand y h false r0 rs hk] at hres
    simp only [Bool.false_eq_true, if_false] at hres
    obtain rfl : r = _ := (Option.some_inj.mp hres).symm
    have hright : (⟨foldMin r0.left (rs.map Rect.left), foldMin r0.top (rs.map Rect.top),
        foldMax r0.right (rs.map Rect.right) - foldMin r0.left (rs.map Rect.left),
        foldMax r0.bottom (rs.map Rect.bottom) - foldMin r0.top (rs.map Rect.top)⟩ :
          Rect).right = foldMax r0.right (rs.map Rect.right) := by
      simp [Rect.right]
    have hbottom : (⟨foldMin r0.left (rs.map Rect.left), foldMin r0.top (rs.map Rect.top),
        foldMax r0.right (rs.map Rect.right) - foldMin r0.left (rs.map Rect.left),
        foldMax r0.bottom (rs.map Rect.bottom) - foldMin r0.top (rs.map Rect.top)⟩ :
          Rect).bottom = foldMax r0.bottom (rs.map Rect.bottom) := by
      simp [Rect.bottom]
    refine ⟨?_, ?_, ?_, ?_, ?_⟩
    · intro k hkmem
      refine ⟨?_, ?_, ?_, ?_⟩
      · exact foldMin_le r0.left (rs.map Rect.left) k.left (mem_map_of_mem_cons hkmem)
      · rw [hright]
        exact le_foldMax r0.right (rs.map Rect.right) k.right (mem_map_of_mem_cons hkmem)
      · exact foldMin_le r0.top (rs.map Rect.top) k.top (mem_map_of_mem_cons hkmem)
      · rw [hbottom]
        exact le_foldMax r0.bottom (rs.map Rect.bottom) k.bottom (mem_map_of_mem_cons hkmem)
    · exact exists_mem_cons_of_mem_map (foldMin_mem r0.left (rs.map Rect.left))
    · rw [hright]
      exact exists_mem_cons_of_mem_map (foldMax_mem r0.right (rs.map Rect.right))
    · exact exists_mem_cons_of_mem_map (foldMin_mem r0.top (rs.map Rect.top))
    · rw [hbottom]
      exact exists_mem_cons_of_mem_map (foldMax_mem r0.bottom (rs.map Rect.bottom))

/-- C4 witness: two kept fragments `{left:0,top:100,w:30,h:10}` and
`{left:40,top:101,w:60,h:8}` merge into the exact envelope
`{left:0,top:100,w:100,h:10}`. -/
theorem merged_rect_is_envelope_witness :
    (∀ k ∈ keptRects [⟨0, 100, 30, 10⟩, ⟨40, 101, 60, 8⟩] 100 20,
        (⟨0, 100, 100, 10⟩ : Rect).left ≤ k.left ∧
        k.right ≤ (⟨0, 100, 100, 10⟩ : Rect).right ∧
        (⟨0, 100, 100, 10⟩ : Rect).top ≤ k.top ∧
        k.bottom ≤ (⟨0, 100, 100, 10⟩ : Rect).bottom) ∧
    (∃ k ∈ keptRects [⟨0, 100, 30, 10⟩, ⟨40, 101, 60, 8⟩] 100 20,
        k.left = (⟨0, 100, 100, 10⟩ : Rect).left) ∧
    (∃ k ∈ keptRects [⟨0, 100, 30, 10⟩, ⟨40, 101, 60, 8⟩] 100 20,
        k.right = (⟨0, 100, 100, 10⟩ : Rect).right) ∧
    (∃ k ∈ keptRects [⟨0, 100, 30, 10⟩, ⟨40, 101, 60, 8⟩] 100 20,
        k.top = (⟨0, 100, 100, 10⟩ : Rect).top) ∧
    (∃ k ∈ keptRects [⟨0, 100, 30, 10⟩, ⟨40, 101, 60, 8⟩] 100 20,
        k.bottom = (⟨0, 100, 100, 10⟩ : Rect).bottom) :=
  merged_rect_is_envelope ⟨⟨0, 0, 500, 500⟩, 0, 0⟩
    [⟨0, 100, 30, 10⟩, ⟨40, 101, 60, 8⟩] 100 20 ⟨0, 100, 100, 10⟩
    (by norm_num [getVisualLineRect, keptRects, List.filter_cons, List.filter_nil,
      Rect.midY, yTol, foldMin, foldMax, Rect.right, Rect.bottom])

/-- C6: when the block is classified preformatted, the merged line's left
edge equals the block's left edge plus its left padding and its right edge
equals the block's right edge minus its right padding, whatever the kept
rects' horizontal extents are. -/
theorem preformatted_override (block : BlockInfo) (cand : List Rect)
    (y h : ℚ) (hne : keptRects cand y h ≠ []) :
    ∃ r, getVisualLineRect block cand y h true = some r ∧
      r.left = block.rect.left + block.paddingLeft ∧
      r.right = block.rect.right - block.paddingRight := by
  cases hk : keptRects cand y h with
  | nil => exact absurd hk hne
  | cons r0 rs =>
    refine ⟨_, getVisualLineRect_cons block cand y h true r0 rs hk, ?_, ?_⟩
    · simp
    · simp [Rect.right]

/-- C6 witness: the spec's example — a preformatted block with 10px
padding and content rect `{left:0, width:400}` forces the merged line's
left/right to `[10, 390]`, even though the only glyph rect spans
`[50, 150]`. -/
theorem preformatted_override_witness :
    ∃ r, getVisualLineRect ⟨⟨0, 0, 400, 100⟩, 10, 10⟩ [⟨50, 20, 100, 10⟩]
        20 10 true = some r ∧
      r.left = (⟨⟨0, 0, 400, 100⟩, 10, 10⟩ : BlockInfo).rect.left +
        (⟨⟨0, 0, 400, 100⟩, 10, 10⟩ : BlockInfo).paddingLeft ∧
      r.right = (⟨⟨0, 0, 400, 100⟩, 10, 10⟩ : BlockInfo).rect.right -
        (⟨⟨0, 0, 400, 100⟩, 10, 10⟩ : BlockInfo).paddingRight :=
  preformatted_override ⟨⟨0, 0, 400, 100⟩, 10, 10⟩ [⟨50, 20, 100, 10⟩] 20 10
    (by norm_num [keptRects, List.filter_cons, List.filter_nil, Rect.midY, yTol])

/-- C7 (amended): `Pacer.getVisualLineRect` returns one rectangle or
`null`, and it returns `null` exactly when no candidate survives the
tolerance filter.  The 20px minimum-width threshold is enforced by the
caller `Pacer.handleMouseMove`, which refuses to adopt a narrower result
as target (treating it like `null`), not by the merger returning `null`. -/
theorem merger_none_iff_no_survivors (block : BlockInfo) (cand : List Rect)
    (y h : ℚ) (pre : Bool) :
    (getVisualLineRect block cand y h pre = none ↔ keptRects cand y h = []) ∧
    (∀ r, acceptedTargetRect (getVisualLineRect block cand y h pre) = some r →
      minLineWidth ≤ r.width) := by
  constructor
  · cases hk : keptRects cand y h with
    | nil => simp [getVisualLineRect_nil block cand y h pre hk]
    | cons r0 rs => simp [getVisualLineRect_cons block cand y h pre r0 rs hk]
  · intro r hr
    exact acceptedTargetRect_width _ r hr

/-- C7 witness: on a block with one wide surviving rect the merger returns
it and the caller accepts it (width 100 ≥ 20); with no candidates the
merger returns `null`. -/
theorem merger_none_iff_no_survivors_witness :
    minLineWidth ≤ (⟨0, 100, 100, 10⟩ : Rect).width ∧
    getVisualLineRect ⟨⟨0, 0, 500, 500⟩, 0, 0⟩ [] 100 20 false = none :=
  ⟨(merger_none_iff_no_survivors ⟨⟨0, 0, 500, 500⟩, 0, 0⟩
      [⟨0, 100, 100, 10⟩] 100 20 false).2 ⟨0, 100, 100, 10⟩
      (by norm_num [getVisualLineRect, keptRects, List.filter_cons, List.filter_nil,
        Rect.midY, yTol, foldMin, foldMax, Rect.right, Rect.bottom,
        acceptedTargetRect, minLineWidth]),
    (merger_none_iff_no_survivors ⟨⟨0, 0, 500, 500⟩, 0, 0⟩
      [] 100 20 false).1.mpr rfl⟩

/-- C7 counterexample: a single surviving fragment of width 10 (below the
20px minimum) makes `getVisualLineRect` return that narrow rectangle, not
`null` — the claim that the merger returns `null` for results narrower
than 20px is false; the narrow result is only discarded later by the
caller. -/
theorem merger_returns_narrow_rect :
    getVisualLineRect ⟨⟨0, 0, 500, 500⟩, 0, 0⟩ [⟨0, 100, 10, 10⟩] 100 20 false =
      some ⟨0, 100, 10, 10⟩ ∧
    (⟨0, 100, 10, 10⟩ : Rect).width < minLineWidth ∧
    acceptedTargetRect (some ⟨0, 100, 10, 10⟩) = none := by
  refine ⟨?_, ?_, ?_⟩ <;>
    norm_num [getVisualLineRect, keptRects, List.filter_cons, List.filter_nil,
      Rect.midY, yTol, foldMin, foldMax, Rect.right, Rect.bottom,
      acceptedTargetRect, minLineWidth]

/-! ### The viewport-wide line scan (`buildVisibleLineCache`, main.js 1079-1118) -/

/-- A grouping accumulator `{top, bottom, left, right}` as built by
`buildVisibleLineCache` (main.js lines 1095-1108). -/
structure Group where
  top : ℚ
  bottom : ℚ
  left : ℚ
  right : ℚ
deriving DecidableEq, Repr

/-- `(candidate.top + candidate.bottom) / 2` (main.js line 1087). -/
def Group.mid (g : Group) : ℚ := (g.top + g.bottom) / 2

/-- `tolerance = Math.max(2, lineRect.height * 0.6)` (main.js line 1088). -/
def groupTol (r : Rect) : ℚ := max 2 (r.height * (6 / 10))

/-- A fresh group from one rectangle (main.js lines 1096-1101). -/
def groupOfRect (r : Rect) : Group := ⟨r.top, r.bottom, r.left, r.right⟩

/-- Merging a rectangle into an existing group (main.js lines 1104-1107). -/
def Group.absorb (g : Group) (r : Rect) : Group :=
  ⟨min g.top r.top, max g.bottom r.bottom, min g.left r.left, max g.right r.right⟩

/-- The inner `for (const candidate of groups)` loop plus the push/merge
(main.js lines 1082-1109): the rectangle is merged into the first group,
in creation order, whose center is within tolerance of the rectangle's
vertical center; when no group matches it is pushed at the end. -/
def insertRect : List Group → Rect → List Group
  | [], r => [groupOfRect r]
  | g :: gs, r =>
    if |g.mid - r.midY| ≤ groupTol r then g.absorb r :: gs
    else g :: insertRect gs r

def buildGroups (rects : List Rect) : List Group := rects.foldl insertRect []

/-- `new DOMRect(group.left, group.top, group.right - group.left,
group.bottom - group.top)` (main.js line 1112). -/
def groupRect (g : Group) : Rect := ⟨g.left, g.top, g.right - g.left, g.bottom - g.top⟩

/-- The `(a, b) => a.top - b.top || a.left - b.left` comparator of
main.js lines 1079 and 1114 as a relation. -/
def rectLE (a b : Rect) : Prop := a.top < b.top ∨ (a.top = b.top ∧ a.left ≤ b.left)

instance rectLE.decidable : DecidableRel rectLE := fun a b => by
  unfold rectLE; infer_instance

instance rectLE.total : IsTotal Rect rectLE where
  total a b := by
    unfold rectLE
    rcases lt_trichotomy a.top b.top with h | h | h
    · exact Or.inl (Or.inl h)
    · rcases le_total a.left b.left with hl | hl
      · exact Or.inl (Or.inr ⟨h, hl⟩)
      · exact Or.inr (Or.inr ⟨h.symm, hl⟩)
    · exact Or.inr (Or.inl h)

instance rectLE.trans : IsTrans Rect rectLE where
  trans a b c hab hbc := by
    unfold rectLE at *
    rcases hab with hab | ⟨hab, hab'⟩ <;> rcases hbc with hbc | ⟨hbc, hbc'⟩
    · exact Or.inl (lt_trans hab hbc)
    · exact Or.inl (hbc ▸ hab)
    · exact Or.inl (hab ▸ hbc)
    · exact Or.inr ⟨hab.trans hbc, hab'.trans hbc'⟩

/-- `Array.prototype.sort` with the `(top, left)` comparator, modelled as a
stable sort producing a `rectLE`-sorted permutation. -/
def sortRects (l : List Rect) : List Rect := l.insertionSort rectLE

/-- The whole post-collection pipeline of `buildVisibleLineCache`
(main.js lines 1079-1114): sort the collected rectangles by `(top, left)`,
greedily group them, turn each group into its bounding rectangle, drop
rects narrower than 20px or without positive height, and sort the result
by `(top, left)` again. -/
def mergedLines (collected : List Rect) : List Rect :=
  sortRects (((buildGroups (sortRects collected)).map groupRect).filter
    fun r => decide (20 ≤ r.width) && decide (0 < r.height))

/-- Transcription of the claim's words for comparison: a rectangle joins
the *most recent* group whose vertical-center distance is within
tolerance.  `insertFromEnd` prefers the latest matching group. -/
def insertFromEnd : List Group → Rect → Option (List Group)
  | [], _ => none
  | g :: gs, r =>
    match insertFromEnd gs r with
    | some gs' => some (g :: gs')
    | none =>
      if |g.mid - r.midY| ≤ groupTol r then some (g.absorb r :: gs) else none

/-- Transcription of the claim's words for comparison (most-recent-group
variant of `insertRect`). -/
def insertRectMR (gs : List Group) (r : Rect) : List Group :=
  match insertFromEnd gs r with
  | some gs' => gs'
  | none => gs ++ [groupOfRect r]

/-- Pipeline using the claim's most-recent-group rule, for comparison with
the code's `mergedLines`. -/
def mergedLinesMR (collected : List Rect) : List Rect :=
  sortRects ((((sortRects collected).foldl insertRectMR []).map groupRect).filter
    fun r => decide (20 ≤ r.width) && decide (0 < r.height))

/-- C2 (amended): collected rectangles are first sorted by `(top, left)`;
then each rectangle in that order joins the *earliest-created* group whose
center is within `max(2px, rectHeight × 0.6)` of the rectangle's vertical
center — the `for (const candidate of groups)` loop scans groups in
creation order and breaks at the first match — and starts a new group at
the end of the list otherwise. -/
theorem scan_groups_earliest_match (collected : List Rect) (gs : List Group) (r : Rect) :
    List.Sorted rectLE (sortRects collected) ∧
    ((∀ g ∈ gs, ¬ |g.mid - r.midY| ≤ groupTol r) →
      insertRect gs r = gs ++ [groupOfRect r]) ∧
    (∀ gpre g gpost, gs = gpre ++ g :: gpost →
      (∀ g' ∈ gpre, ¬ |g'.mid - r.midY| ≤ groupTol r) →
      |g.mid - r.midY| ≤ groupTol r →
      insertRect gs r = gpre ++ g.absorb r :: gpost) := by
  refine ⟨List.sorted_insertionSort rectLE collected, ?_, ?_⟩
  · intro hnone
    induction gs with
    | nil => rfl
    | cons g gs ih =>
      rw [insertRect, if_neg (hnone g (List.mem_cons_self _ _))]
      rw [ih fun g' hg' => hnone g' (List.mem_cons_of_mem _ hg')]
      rfl
  · intro gpre g gpost hsplit hpre hg
    subst hsplit
    induction gpre with
    | nil => rw [List.nil_append, insertRect, if_pos hg]; rfl
    | cons p gpre ih =>
      rw [List.cons_append, insertRect, if_neg (hpre p (List.mem_cons_self _ _))]
      rw [ih fun g' hg' => hpre g' (List.mem_cons_of_mem _ hg')]
      rfl

/-- C2 witness: a first rectangle opens a group; a later rectangle whose
center is within tolerance of that (earliest) group is merged into it. -/
theorem scan_groups_earliest_match_witness :
    List.Sorted rectLE (sortRects [(⟨0, 0, 100, 20⟩ : Rect)]) ∧
    insertRect [] (⟨0, 0, 100, 20⟩ : Rect) = [groupOfRect ⟨0, 0, 100, 20⟩] ∧
    insertRect [⟨0, 20, 0, 100⟩] (⟨5, 14, 100, 40⟩ : Rect) =
      [(⟨0, 20, 0, 100⟩ : Group).absorb ⟨5, 14, 100, 40⟩] :=
  ⟨(scan_groups_earliest_match [⟨0, 0, 100, 20⟩] [] ⟨0, 0, 100, 20⟩).1,
    (scan_groups_earliest_match [] [] ⟨0, 0, 100, 20⟩).2.1 (by simp),
    (scan_groups_earliest_match [] [⟨0, 20, 0, 100⟩] ⟨5, 14, 100, 40⟩).2.2
      [] ⟨0, 20, 0, 100⟩ [] rfl (by simp)
      (by norm_num [Group.mid, Rect.midY, groupTol])⟩

/-- C2 counterexample: on the rectangles
`{top:0,h:20}`, `{top:14,h:12}`, `{top:14,h:40}` the third rect (center 34,
tolerance 24) matches both existing groups (centers 10 and 20); the code
merges it into the *first* group, while the claim's most-recent rule would
merge it into the second, producing a different output. -/
theorem scan_groups_most_recent_counterexample :
    mergedLines [⟨0, 0, 100, 20⟩, ⟨0, 14, 100, 12⟩, ⟨5, 14, 100, 40⟩] ≠
      mergedLinesMR [⟨0, 0, 100, 20⟩, ⟨0, 14, 100, 12⟩, ⟨5, 14, 100, 40⟩] := by
  norm_num [mergedLines, mergedLinesMR, sortRects, List.insertionSort,
    List.orderedInsert, rectLE, buildGroups, insertRect, insertRectMR,
    insertFromEnd, Group.mid, groupTol, Rect.midY, Rect.bottom, Rect.right,
    groupOfRect, Group.absorb, groupRect, List.filter_cons, List.filter_nil]

/-- C5 (amended): the list returned by the viewport-wide line scan is
always sorted top-to-bottom (it is sorted by the `(top, left)` comparator
as its last step).  However, the grouping is not idempotent and two
returned rectangles may still have vertical centers within tolerance of
each other (see the counterexample). -/
theorem mergedLines_sorted (collected : List Rect) :
    List.Pairwise (fun a b : Rect => a.top ≤ b.top) (mergedLines collected) := by
  have hs : List.Sorted rectLE (mergedLines collected) :=
    List.sorted_insertionSort rectLE _
  exact hs.imp fun {a b} hab => by
    rcases hab with h | ⟨h, _⟩
    · exact le_of_lt h
    · exact le_of_eq h

/-- C5 counterexample: on the same three rectangles as the C2
counterexample the scan returns two rectangles whose group centers (27 and
20) are within the second rectangle's tolerance `max(2, 12×0.6) = 7.2`, so
re-running the grouping on the output merges them: grouping is not
idempotent. -/
theorem mergedLines_not_idempotent :
    mergedLines (mergedLines [⟨0, 0, 100, 20⟩, ⟨0, 14, 100, 12⟩, ⟨5, 14, 100, 40⟩]) ≠
      mergedLines [⟨0, 0, 100, 20⟩, ⟨0, 14, 100, 12⟩, ⟨5, 14, 100, 40⟩] := by
  norm_num [mergedLines, sortRects, List.insertionSort, List.orderedInsert,
    rectLE, buildGroups, insertRect, Group.mid, groupTol, Rect.midY,
    Rect.bottom, Rect.right, groupOfRect, Group.absorb, groupRect,
    List.filter_cons, List.filter_nil]

/-! ### The Smoothed Follower (`Pacer.animateSmart`, `Pacer.animate`,
`Dimmer.animate`) -/

/-- `const ease = 0.18` in `Pacer.animateSmart` (pacer.js line 519). -/
def smartEase : ℚ := 18 / 100

/-- `const ease = 0.15` in `Pacer.animate` (pacer.js line 608). -/
def classicEase : ℚ := 15 / 100

/-- `const ease = 0.12` in `Dimmer.animate`. -/
def dimmerEase : ℚ := 12 / 100

/-- One per-frame update of the smoothing loop:
`current += (target - current) * ease`, the form used for each axis in
`Pacer.animateSmart` (pacer.js lines 523-525), `Pacer.animate`
(line 609) and `Dimmer.animate`. -/
def followStep (ease target current : ℚ) : ℚ := current + (target - current) * ease

/-- The position after `n` frames with a constant target. -/
def followN (ease target c0 : ℚ) : ℕ → ℚ
  | 0 => c0
  | n + 1 => followStep ease target (followN ease target c0 n)

theorem followN_closed (ease target c0 : ℚ) (n : ℕ) :
    target - followN ease target c0 n = (target - c0) * (1 - ease) ^ n := by
  induction n with
  | zero => simp [followN]
  | succ n ih =>
    have h : target - followN ease target c0 (n + 1) =
        (target - followN ease target c0 n) * (1 - ease) := by
      simp only [followN, followStep]; ring
    rw [h, ih, pow_succ, mul_assoc]

theorem followN_dist (ease target c0 : ℚ) (he1 : ease ≤ 1) (n : ℕ) :
    |target - followN ease target c0 n| = |target - c0| * (1 - ease) ^ n := by
  rw [followN_closed, abs_mul, abs_pow,
    abs_of_nonneg (by linarith : (0 : ℚ) ≤ 1 - ease)]

/-- C3 (amended): for every ease in (0,1) and every constant target held
over successive frames, the distance `|current - target|` strictly
decreases on each frame *as long as current ≠ target* (once current equals
target it stays there, so the distance is constant at 0), and the distance
falls within 1px after a bounded number of frames. -/
theorem follower_converges (ease target c0 : ℚ)
    (he0 : 0 < ease) (he1 : ease < 1) :
    (∀ n : ℕ, followN ease target c0 n ≠ target →
      |target - followN ease target c0 (n + 1)| <
        |target - followN ease target c0 n|) ∧
    (∃ N : ℕ, ∀ n : ℕ, N ≤ n → |target - followN ease target c0 n| ≤ 1) := by
  have hq0 : (0 : ℚ) ≤ 1 - ease := by linarith
  have hq1 : (1 : ℚ) - ease < 1 := by linarith
  constructor
  · intro n hne
    have hpos : 0 < |target - followN ease target c0 n| :=
      abs_pos.mpr (sub_ne_zero.mpr fun h => hne h.symm)
    have hstep : |target - followN ease target c0 (n + 1)| =
        |target - followN ease target c0 n| * (1 - ease) := by
      rw [followN_dist ease target c0 (le_of_lt he1) (n + 1),
        followN_dist ease target c0 (le_of_lt he1) n, pow_succ, ← mul_assoc]
    rw [hstep]
    exact mul_lt_of_lt_one_right hpos hq1
  · set d := |target - c0| with hd
    have hd0 : 0 ≤ d := abs_nonneg _
    have hdpos : (0 : ℚ) < 1 / (d + 1) := by positivity
    obtain ⟨N, hN⟩ := exists_pow_lt_of_lt_one hdpos hq1
    refine ⟨N, ?_⟩
    have hbase : |target - followN ease target c0 N| ≤ 1 := by
      rw [followN_dist ease target c0 (le_of_lt he1)]
      calc d * (1 - ease) ^ N ≤ d * (1 / (d + 1)) :=
            mul_le_mul_of_nonneg_left (le_of_lt hN) hd0
        _ = d / (d + 1) := by ring
        _ ≤ 1 := by
            rw [div_le_one (by linarith : (0 : ℚ) < d + 1)]; linarith
    intro n hn
    induction n, hn using Nat.le_induction with
    | base => exact hbase
    | succ n _ ih =>
      have hstep : |target - followN ease target c0 (n + 1)| =
          |target - followN ease target c0 n| * (1 - ease) := by
        rw [followN_dist ease target c0 (le_of_lt he1) (n + 1),
          followN_dist ease target c0 (le_of_lt he1) n, pow_succ, ← mul_assoc]
      rw [hstep]
      calc |target - followN ease target c0 n| * (1 - ease) ≤
            |target - followN ease target c0 n| * 1 :=
            mul_le_mul_of_nonneg_left (by linarith) (abs_nonneg _)
        _ = |target - followN ease target c0 n| := mul_one _
        _ ≤ 1 := ih

/-- C3 witness: the smart-mode ease 0.18 with target 10 starting at 0. -/
theorem follower_converges_witness :
    (∀ n : ℕ, followN smartEase 10 0 n ≠ 10 →
      |(10 : ℚ) - followN smartEase 10 0 (n + 1)| <
        |(10 : ℚ) - followN smartEase 10 0 n|) ∧
    (∃ N : ℕ, ∀ n : ℕ, N ≤ n → |(10 : ℚ) - followN smartEase 10 0 n| ≤ 1) :=
  follower_converges smartEase 10 0 (by norm_num [smartEase])
    (by norm_num [smartEase])

/-- C3 counterexample: when current already equals the (constant) target
the update leaves it in place, so `|current - target|` stays 0 instead of
strictly decreasing: the unconditional "strictly decreases on each frame"
is false. -/
theorem follower_fixed_point :
    followN smartEase 0 0 1 = 0 ∧
    ¬ |(0 : ℚ) - followN smartEase 0 0 1| < |(0 : ℚ) - followN smartEase 0 0 0| := by
  constructor
  · norm_num [followN, followStep]
  · norm_num [followN, followStep]

/-! ### Line detection at a point (`Pacer.detectTextLineAtPoint`,
pacer.js lines 340-395)

The DOM reads the function performs (hit testing, the caret range, the
probe rectangle, the block ancestor and its text-node client rects) are
collected in `DetectEnv`.  The source performs no assignment to `this` or
to any DOM node — it only creates throw-away `Range` objects — so its
embedding is a pure function of that environment. -/

/-- ASCII model of `Char` uppercasing as performed by
`String.prototype.toUpperCase` on tag names. -/
def upperChar (c : Char) : Char :=
  if 'a' ≤ c ∧ c ≤ 'z' then Char.ofNat (c.toNat - 32) else c

/-- ASCII model of `String.prototype.toUpperCase`. -/
def upperString (s : String) : String := ⟨s.data.map upperChar⟩

/-- `!textContent || textContent.trim().length === 0`: true exactly when
the text is empty or consists of whitespace characters only. -/
def whitespaceOnly (s : String) : Bool := s.data.all (·.isWhitespace)

/-- The parent element of the caret's text node, as inspected at
pacer.js lines 372-379. -/
structure ParentInfo where
  isContentEditable : Bool
  tagName : String
deriving DecidableEq, Repr

/-- `range.startContainer` as inspected at pacer.js lines 363-369. -/
structure CaretNode where
  isTextNode : Bool
  textContent : String
  parent : Option ParentInfo
deriving DecidableEq, Repr

/-- The parent checks of pacer.js lines 372-379: a missing parent passes;
a content-editable parent or an INPUT/TEXTAREA/SCRIPT/STYLE parent (tag
name uppercased) fails. -/
def parentAllowed : Option ParentInfo → Bool
  | none => true
  | some p =>
    if p.isContentEditable then false
    else
      let tagName := upperString p.tagName
      !(decide (tagName = "INPUT") || decide (tagName = "TEXTAREA") ||
        decide (tagName = "SCRIPT") || decide (tagName = "STYLE"))

/-- All DOM inputs read by `detectTextLineAtPoint` for a given point. -/
structure DetectEnv where
  /-- result of the `isOverInteractiveElement(x, y)` ancestor walk. -/
  overInteractive : Bool
  /-- the caret range from `caretRangeFromPoint`/`caretPositionFromPoint`
  (`none` when the browser finds no range). -/
  caretNode : Option CaretNode
  /-- the probe rectangle of `getCaretRect` (`none` when the range calls
  throw). -/
  caretRect : Option Rect
  /-- the block ancestor's geometry (`getBlockAncestor` always finds one). -/
  block : BlockInfo
  /-- the `isPreformattedBlock` classification of that block. -/
  blockIsPreformatted : Bool
  /-- client rects of the block's accepted text nodes (TreeWalker output). -/
  blockTextRects : List Rect
deriving DecidableEq, Repr

/-- `Pacer.detectTextLineAtPoint` (pacer.js lines 340-395), transcribed
check for check: interactive-element guard, caret range, text-node test,
whitespace test, editable/INPUT/TEXTAREA/SCRIPT/STYLE parent test,
zero-height probe rect test, then `getVisualLineRect` on the block. -/
def detectTextLineAtPoint (env : DetectEnv) : Option Rect :=
  if env.overInteractive then none
  else
    match env.caretNode with
    | none => none
    | some node =>
      if !node.isTextNode then none
      else if whitespaceOnly node.textContent then none
      else if !parentAllowed node.parent then none
      else
        match env.caretRect with
        | none => none
        | some caretRect =>
          if caretRect.height = 0 then none
          else
            getVisualLineRect env.block env.blockTextRects
              caretRect.top caretRect.height env.blockIsPreformatted

theorem parentAllowed_true (p : ParentInfo)
    (h : parentAllowed (some p) = true) :
    p.isContentEditable = false ∧ upperString p.tagName ≠ "INPUT" ∧
      upperString p.tagName ≠ "TEXTAREA" := by
  simp only [parentAllowed] at h
  by_cases hedit : p.isContentEditable = true
  · rw [if_pos hedit] at h
    exact absurd h (by simp)
  · rw [if_neg hedit] at h
    simp only [Bool.not_eq_true', Bool.or_eq_false_iff,
      decide_eq_false_iff_not] at h
    refine ⟨?_, h.1.1.1, h.1.1.2⟩
    revert hedit; cases p.isContentEditable <;> simp

/-- Inversion: a non-null detection forces every guard to have passed. -/
theorem detect_some_inv (env : DetectEnv) (r : Rect)
    (h : detectTextLineAtPoint env = some r) :
    env.overInteractive = false ∧
    (∃ node, env.caretNode = some node ∧ node.isTextNode = true ∧
      (∀ p, node.parent = some p → p.isContentEditable = false ∧
        upperString p.tagName ≠ "INPUT" ∧ upperString p.tagName ≠ "TEXTAREA")) ∧
    (∃ cr, env.caretRect = some cr ∧ cr.height ≠ 0) := by
  unfold detectTextLineAtPoint at h
  split at h
  · exact absurd h (by simp)
  · rename_i hoi
    split at h
    · exact absurd h (by simp)
    · rename_i node hnode
      split at h
      · exact absurd h (by simp)
      · rename_i htext
        split at h
        · exact absurd h (by simp)
        · split at h
          · exact absurd h (by simp)
          · rename_i hpar
            split at h
            · exact absurd h (by simp)
            · rename_i cr hcr
              split at h
              · exact absurd h (by simp)
              · rename_i hh
                have htext' : node.isTextNode = true := by
                  revert htext; cases node.isTextNode <;> simp
                have hpar' : parentAllowed node.parent = true := by
                  revert hpar; cases parentAllowed node.parent <;> simp
                refine ⟨by simpa using hoi, ⟨node, hnode, htext', ?_⟩,
                  ⟨cr, hcr, hh⟩⟩
                intro p hp
                exact parentAllowed_true p (hp ▸ hpar')

/-- C8: `detectTextLineAtPoint` returns `null` (rather than raising)
whenever no text node is under the point (no caret range, or a non-text
start container), whenever the containing element is an input or editable
field, and whenever the probe rectangle around the caret has zero height.
It is a pure function of the DOM inputs it reads: the source performs no
write to pacer state or to the document. -/
theorem detect_null_contract (env : DetectEnv) :
    ((env.caretNode = none ∨
        ∃ node, env.caretNode = some node ∧ node.isTextNode = false) →
      detectTextLineAtPoint env = none) ∧
    ((∃ node p, env.caretNode = some node ∧ node.parent = some p ∧
        (p.isContentEditable = true ∨ upperString p.tagName = "INPUT" ∨
          upperString p.tagName = "TEXTAREA")) →
      detectTextLineAtPoint env = none) ∧
    ((∃ cr, env.caretRect = some cr ∧ cr.height = 0) →
      detectTextLineAtPoint env = none) := by
  refine ⟨?_, ?_, ?_⟩
  · intro hcase
    cases hres : detectTextLineAtPoint env with
    | none => rfl
    | some r =>
      obtain ⟨-, ⟨node, hnode, htext, -⟩, -⟩ := detect_some_inv env r hres
      rcases hcase with hnone | ⟨node', hnode', htext'⟩
      · rw [hnone] at hnode; exact absurd hnode (by simp)
      · rw [hnode'] at hnode
        obtain rfl : node' = node := by simpa using hnode
        rw [htext] at htext'
        exact absurd htext' (by simp)
  · intro hcase
    cases hres : detectTextLineAtPoint env with
    | none => rfl
    | some r =>
      obtain ⟨-, ⟨node, hnode, -, hpar⟩, -⟩ := detect_some_inv env r hres
      obtain ⟨node', p, hnode', hp, hbad⟩ := hcase
      rw [hnode'] at hnode
      obtain rfl : node' = node := by simpa using hnode
      obtain ⟨hedit, hinput, hta⟩ := hpar p hp
      rcases hbad with hbad | hbad | hbad
      · rw [hedit] at hbad; exact absurd hbad (by simp)
      · exact absurd hbad hinput
      · exact absurd hbad hta
  · intro hcase
    cases hres : detectTextLineAtPoint env with
    | none => rfl
    | some r =>
      obtain ⟨-, -, ⟨cr, hcr, hh⟩⟩ := detect_some_inv env r hres
      obtain ⟨cr', hcr', hh'⟩ := hcase
      rw [hcr'] at hcr
      obtain rfl : cr' = cr := by simpa using hcr
      exact absurd hh' hh

/-- C8 witness: three concrete environments — no caret range, a textarea
parent, a zero-height probe rect — all yield `null`. -/
theorem detect_null_contract_witness :
    detectTextLineAtPoint ⟨false, none, none, ⟨⟨0, 0, 100, 100⟩, 0, 0⟩, false, []⟩ = none ∧
    detectTextLineAtPoint ⟨false, some ⟨true, "hi", some ⟨false, "textarea"⟩⟩,
      some ⟨0, 0, 10, 10⟩, ⟨⟨0, 0, 100, 100⟩, 0, 0⟩, false, []⟩ = none ∧
    detectTextLineAtPoint ⟨false, some ⟨true, "hi", some ⟨false, "p"⟩⟩,
      some ⟨0, 0, 10, 0⟩, ⟨⟨0, 0, 100, 100⟩, 0, 0⟩, false, []⟩ = none :=
  ⟨(detect_null_contract
      ⟨false, none, none, ⟨⟨0, 0, 100, 100⟩, 0, 0⟩, false, []⟩).1 (Or.inl rfl),
    (detect_null_contract ⟨false, some ⟨true, "hi", some ⟨false, "textarea"⟩⟩,
        some ⟨0, 0, 10, 10⟩, ⟨⟨0, 0, 100, 100⟩, 0, 0⟩, false, []⟩).2.1
      ⟨⟨true, "hi", some ⟨false, "textarea"⟩⟩, ⟨false, "textarea"⟩, rfl, rfl,
        Or.inr (Or.inr (by decide))⟩,
    (detect_null_contract ⟨false, some ⟨true, "hi", some ⟨false, "p"⟩⟩,
        some ⟨0, 0, 10, 0⟩, ⟨⟨0, 0, 100, 100⟩, 0, 0⟩, false, []⟩).2.2
      ⟨⟨0, 0, 10, 0⟩, rfl, rfl⟩⟩

/-! ### The Pacer lifecycle and event loop (pacer.js lines 11-633)

The mutable fields of the `Pacer` instance and of its overlay element's
inline style form the state; pointer moves, scrolls and animation frames
are the events.  `requestAnimationFrame`/`cancelAnimationFrame` are
modelled by `pendingFrame`: a frame event runs the scheduled callback (if
any), and the callback re-schedules itself; `addEventListener`/
`removeEventListener` are modelled by the listener flags, which gate
whether an event reaches its handler. -/

/-- Which callback `this.animationFrame` refers to. -/
inductive FrameCb where
  | smart
  | classic
deriving DecidableEq, Repr

/-- The pacer settings fields read by the modelled operations
(pacer.js lines 15-24). -/
structure PacerSettings where
  height : ℚ
  opacity : ℚ
  offset : ℚ
  smoothFollow : Bool
  smartDetection : Bool
  scrollFade : Bool
deriving DecidableEq, Repr

/-- The inline style fields of the pacer element that the modelled
operations write. -/
structure PacerStyle where
  display : String
  opacity : ℚ
  top : ℚ
  left : ℚ
  width : ℚ
  transform : String
deriving DecidableEq, Repr

/-- `this.currentRect = { top, left, width }` (pacer.js line 39). -/
structure CRect where
  top : ℚ
  left : ℚ
  width : ℚ
deriving DecidableEq, Repr

/-- The mutable state of a `Pacer` instance (constructor, pacer.js
lines 12-70), with the element's style and the registration state of its
listeners and frame callback. -/
structure PacerState where
  settings : PacerSettings
  enabled : Bool
  style : PacerStyle
  currentY : ℚ
  targetY : ℚ
  isOverText : Bool
  lastTextRect : Option Rect
  lastCheckTime : ℚ
  targetRect : Option Rect
  currentRect : CRect
  isScrolling : Bool
  lastMouseX : ℚ
  lastMouseY : ℚ
  mouseListener : Bool
  scrollListener : Bool
  pendingFrame : Option FrameCb
deriving DecidableEq, Repr

/-- `this.throttleDelay = 30` (pacer.js line 35). -/
def throttleDelay : ℚ := 30

/-- `Pacer.updatePosition` (pacer.js lines 578-581). -/
def pacerUpdatePosition (s : PacerState) : PacerState :=
  { s with style := { s.style with top := s.currentY - s.settings.height / 2 } }

/-- `Pacer.animateSmart` (pacer.js lines 516-542): bail out unless enabled
and in smart mode; ease `currentRect` toward `targetRect` and restyle the
element when over text, fade out otherwise; re-request the frame. -/
def pacerAnimateSmart (s : PacerState) : PacerState :=
  if !s.enabled || !s.settings.smartDetection then s
  else
    let s1 :=
      match s.targetRect, s.isOverText with
      | some tr, true =>
        let cr : CRect :=
          ⟨followStep smartEase tr.top s.currentRect.top,
            followStep smartEase tr.left s.currentRect.left,
            followStep smartEase tr.width s.currentRect.width⟩
        { s with currentRect := cr,
                 style := { display := "block", opacity := s.settings.opacity,
                            top := cr.top + (if tr.height = 0 then 20 else tr.height) -
                              s.settings.height / 2,
                            left := cr.left, width := cr.width,
                            transform := "none" } }
      | _, _ => { s with style := { s.style with opacity := 0 } }
    { s1 with pendingFrame := some FrameCb.smart }

/-- `Pacer.animate` (pacer.js lines 604-614), the classic-mode loop. -/
def pacerAnimate (s : PacerState) : PacerState :=
  if !s.enabled || s.settings.smartDetection then s
  else
    let s1 := { s with currentY := followStep classicEase s.targetY s.currentY }
    { pacerUpdatePosition s1 with pendingFrame := some FrameCb.classic }

/-- `Pacer.handleMouseMove` (pacer.js lines 193-233).  `detected` is the
result of the `detectTextLineAtPoint` call for this event. -/
def pacerHandleMouseMove (x y now : ℚ) (detected : Option Rect)
    (s : PacerState) : PacerState :=
  let s2 := { s with lastMouseX := x, lastMouseY := y }
  let s3 :=
    if s2.isScrolling then
      let su := { s2 with isScrolling := false }
      if !su.settings.scrollFade then
        { su with style := { su.style with display := "block" } }
      else su
    else s2
  if s3.settings.smartDetection then
    if now - s3.lastCheckTime < throttleDelay then s3
    else
      let s4 := { s3 with lastCheckTime := now }
      match detected with
      | some tr =>
        if minLineWidth ≤ tr.width then
          { s4 with targetRect := some tr, isOverText := true }
        else { s4 with targetRect := none, isOverText := false }
      | none => { s4 with targetRect := none, isOverText := false }
  else
    let s4 := { s3 with targetY := y + s3.settings.offset }
    if !s4.settings.smoothFollow then
      pacerUpdatePosition { s4 with currentY := s4.targetY }
    else s4

/-- `Pacer.hideForScroll` (pacer.js lines 249-263). -/
def pacerHideForScroll (s : PacerState) : PacerState :=
  let s1 :=
    if s.settings.scrollFade then { s with style := { s.style with opacity := 0 } }
    else { s with style := { s.style with display := "none" } }
  { s1 with isOverText := false, targetRect := none }

/-- `Pacer.handleScroll` (pacer.js lines 238-244). -/
def pacerHandleScroll (s : PacerState) : PacerState :=
  if !s.isScrolling then pacerHideForScroll { s with isScrolling := true } else s

/-- `Pacer.stopAnimation` (pacer.js lines 594-599): cancel the pending
frame callback, if any. -/
def pacerStopAnimation (s : PacerState) : PacerState :=
  match s.pendingFrame with
  | some _ => { s with pendingFrame := none }
  | none => s

/-- `Pacer.startSmartAnimation` (pacer.js lines 508-511). -/
def pacerStartSmartAnimation (s : PacerState) : PacerState :=
  if s.pendingFrame.isSome then s else pacerAnimateSmart s

/-- `Pacer.startAnimation` (pacer.js lines 586-589). -/
def pacerStartAnimation (s : PacerState) : PacerState :=
  if s.pendingFrame.isSome then s else pacerAnimate s

/-- `Pacer.enable` (pacer.js lines 134-159): no-op when already enabled,
otherwise show the element, reset detection and scroll state, register
both listeners and start the appropriate animation loop.  (`init` is a
no-op here: the element is part of the state.) -/
def pacerEnable (s : PacerState) : PacerState :=
  if s.enabled then s
  else
    let s1 := { s with enabled := true,
                       style := { s.style with display := "block" },
                       isOverText := false, lastTextRect := none,
                       targetRect := none, currentRect := ⟨0, 0, 0⟩,
                       isScrolling := false,
                       mouseListener := true, scrollListener := true }
    if s1.settings.smartDetection then pacerStartSmartAnimation s1
    else if s1.settings.smoothFollow then pacerStartAnimation s1
    else s1

/-- `Pacer.disable` (pacer.js lines 164-176): no-op when already
disabled, otherwise hide the element, deregister both listeners, clear the
scroll flag and cancel the pending frame. -/
def pacerDisable (s : PacerState) : PacerState :=
  if !s.enabled then s
  else
    pacerStopAnimation
      { s with enabled := false,
               style := { s.style with display := "none" },
               mouseListener := false, scrollListener := false,
               isScrolling := false }

/-- `Pacer.toggle` (pacer.js lines 181-188): flip and return the new
`enabled`. -/
def pacerToggle (s : PacerState) : PacerState × Bool :=
  let s' := if s.enabled then pacerDisable s else pacerEnable s
  (s', s'.enabled)

/-- The events the pacer reacts to while on a page. -/
inductive PacerEvent where
  /-- a `mousemove` at `(x, y)`, arriving at time `now`, with the text
  line detection result for that point. -/
  | mousemove (x y now : ℚ) (detected : Option Rect)
  | scroll
  | frame
deriving DecidableEq, Repr

/-- Event dispatch: a handler only runs while its listener is registered
(`addEventListener`/`removeEventListener`), and a frame event only runs a
callback that is actually scheduled (`requestAnimationFrame`); the frame
consumes the scheduled callback, which re-schedules itself inside
`animate`/`animateSmart`. -/
def pacerStep (s : PacerState) (e : PacerEvent) : PacerState :=
  match e with
  | .mousemove x y now detected =>
    if s.mouseListener then pacerHandleMouseMove x y now detected s else s
  | .scroll => if s.scrollListener then pacerHandleScroll s else s
  | .frame =>
    match s.pendingFrame with
    | none => s
    | some FrameCb.smart => pacerAnimateSmart { s with pendingFrame := none }
    | some FrameCb.classic => pacerAnimate { s with pendingFrame := none }

theorem pacerStopAnimation_pendingFrame (s : PacerState) :
    (pacerStopAnimation s).pendingFrame = none := by
  unfold pacerStopAnimation; split <;> simp_all

theorem pacerStopAnimation_mouseListener (s : PacerState) :
    (pacerStopAnimation s).mouseListener = s.mouseListener := by
  unfold pacerStopAnimation; split <;> rfl

theorem pacerStopAnimation_scrollListener (s : PacerState) :
    (pacerStopAnimation s).scrollListener = s.scrollListener := by
  unfold pacerStopAnimation; split <;> rfl

theorem pacerStopAnimation_enabled (s : PacerState) :
    (pacerStopAnimation s).enabled = s.enabled := by
  unfold pacerStopAnimation; split <;> rfl

/-- A state with no registered listeners and no scheduled frame is a fixed
point of the event loop. -/
theorem pacerStep_halted (s : PacerState) (hm : s.mouseListener = false)
    (hs : s.scrollListener = false) (hp : s.pendingFrame = none)
    (e : PacerEvent) : pacerStep s e = s := by
  cases e with
  | mousemove x y now detected => simp [pacerStep, hm]
  | scroll => simp [pacerStep, hs]
  | frame => simp [pacerStep, hp]

/-- C9: after `disable()` on an enabled pacer, the pending
animation-frame callback is cancelled and both listeners are deregistered,
so no sequence of subsequent pointer-move, scroll or frame events mutates
any of its state — in particular its overlay style — until it is
re-enabled. -/
theorem disable_halts_event_loop (s : PacerState) (h : s.enabled = true)
    (evs : List PacerEvent) :
    evs.foldl pacerStep (pacerDisable s) = pacerDisable s := by
  have hd : pacerDisable s =
      pacerStopAnimation
        { s with enabled := false,
                 style := { s.style with display := "none" },
                 mouseListener := false, scrollListener := false,
                 isScrolling := false } := by
    unfold pacerDisable
    rw [if_neg (by simp [h])]
  have hm : (pacerDisable s).mouseListener = false := by
    rw [hd, pacerStopAnimation_mouseListener]
  have hs : (pacerDisable s).scrollListener = false := by
    rw [hd, pacerStopAnimation_scrollListener]
  have hp : (pacerDisable s).pendingFrame = none := by
    rw [hd, pacerStopAnimation_pendingFrame]
  induction evs with
  | nil => rfl
  | cons e evs ih =>
    rw [List.foldl_cons, pacerStep_halted (pacerDisable s) hm hs hp e, ih]

/-- A concrete enabled pacer in smart mode with a scheduled frame. -/
def samplePacerOn : PacerState :=
  ⟨⟨4, 6 / 10, 0, true, true, true⟩, true, ⟨"block", 6 / 10, 0, 0, 0, "none"⟩,
    0, 0, false, none, 0, none, ⟨0, 0, 0⟩, false, 0, 0, true, true,
    some FrameCb.smart⟩

/-- A concrete disabled pacer. -/
def samplePacerOff : PacerState :=
  { samplePacerOn with enabled := false, mouseListener := false,
                       scrollListener := false, pendingFrame := none }

/-- C9 witness: disabling the sample pacer and then firing a mouse move, a
scroll and a frame leaves the state untouched. -/
theorem disable_halts_event_loop_witness :
    List.foldl pacerStep (pacerDisable samplePacerOn)
      [PacerEvent.mousemove 5 6 100 (some ⟨0, 50, 100, 10⟩),
        PacerEvent.scroll, PacerEvent.frame] = pacerDisable samplePacerOn :=
  disable_halts_event_loop samplePacerOn rfl
    [PacerEvent.mousemove 5 6 100 (some ⟨0, 50, 100, 10⟩),
      PacerEvent.scroll, PacerEvent.frame]

/-! ### The Dimmer lifecycle (Dimmer class, banner and focused-box modes) -/

/-- The dimmer settings fields read by the modelled operations. -/
structure DimmerSettings where
  opacity : ℚ
  windowHeight : ℚ
  scrollFade : Bool
  focusedBox : Bool
deriving DecidableEq, Repr

/-- Inline style fields of one dimmer overlay element. -/
structure OverlayStyle where
  display : String
  opacity : ℚ
  top : ℚ
  left : ℚ
  width : ℚ
  height : ℚ
deriving DecidableEq, Repr

/-- A freshly created overlay element: `display: none` in its cssText. -/
def newOverlayStyle : OverlayStyle := ⟨"none", 0, 0, 0, 0, 0⟩

/-- The mutable state of a `Dimmer` instance (its constructor): the two
banner overlays and the focus box are `Option`s because `init` creates
them lazily per mode. -/
structure DimmerState where
  settings : DimmerSettings
  enabled : Bool
  topOverlay : Option OverlayStyle
  bottomOverlay : Option OverlayStyle
  focusBox : Option OverlayStyle
  currentY : ℚ
  targetY : ℚ
  currentLeft : ℚ
  targetLeft : ℚ
  currentWidth : ℚ
  targetWidth : ℚ
  isScrolling : Bool
  isOverBlock : Bool
  mouseListener : Bool
  scrollListener : Bool
  animPending : Bool
deriving DecidableEq, Repr

/-- `Dimmer.init`/`initBannerMode`/`initFocusBox`: create the mode's
elements unless they already exist. -/
def dimmerInit (s : DimmerState) : DimmerState :=
  if s.settings.focusedBox then
    if s.focusBox.isSome then s else { s with focusBox := some newOverlayStyle }
  else
    if s.topOverlay.isSome then s
    else { s with topOverlay := some newOverlayStyle,
                  bottomOverlay := some newOverlayStyle }

/-- `Dimmer.updateBannerPosition` (needs `window.innerHeight`). -/
def dimmerUpdateBanner (innerH : ℚ) (s : DimmerState) : DimmerState :=
  match s.topOverlay, s.bottomOverlay with
  | some t, some b =>
    let halfWindow := s.settings.windowHeight / 2
    { s with
      topOverlay := some { t with height := max 0 (s.currentY - halfWindow) },
      bottomOverlay :=
        some { b with height := max 0 (innerH - (s.currentY + halfWindow)) } }
  | _, _ => s

/-- `Dimmer.updateFocusBoxPosition`. -/
def dimmerUpdateFocusBox (s : DimmerState) : DimmerState :=
  match s.focusBox with
  | none => s
  | some f =>
    let halfWindow := s.settings.windowHeight / 2
    let f' := { f with top := s.currentY - halfWindow, left := s.currentLeft,
                       width := s.currentWidth * (105 / 100),
                       height := s.settings.windowHeight,
                       opacity := if s.isOverBlock ∧ ¬s.isScrolling then 1 else 0 }
    { s with focusBox := some f' }

/-- `Dimmer.updatePosition`. -/
def dimmerUpdatePosition (innerH : ℚ) (s : DimmerState) : DimmerState :=
  if s.settings.focusedBox then dimmerUpdateFocusBox s
  else dimmerUpdateBanner innerH s

/-- `Dimmer.animate`: bail out unless enabled; ease Y (and left/width in
focused-box mode) toward their targets, reposition, re-request the
frame. -/
def dimmerAnimate (innerH : ℚ) (s : DimmerState) : DimmerState :=
  if !s.enabled then s
  else
    let s1 := { s with currentY := followStep dimmerEase s.targetY s.currentY }
    let s2 :=
      if s1.settings.focusedBox then
        { s1 with currentLeft := followStep dimmerEase s1.targetLeft s1.currentLeft,
                  currentWidth := followStep dimmerEase s1.targetWidth s1.currentWidth }
      else s1
    { dimmerUpdatePosition innerH s2 with animPending := true }

/-- `Dimmer.stopAnimation`. -/
def dimmerStopAnimation (s : DimmerState) : DimmerState :=
  if s.animPending then { s with animPending := false } else s

/-- `Dimmer.startAnimation`. -/
def dimmerStartAnimation (innerH : ℚ) (s : DimmerState) : DimmerState :=
  if s.animPending then s else dimmerAnimate innerH s

/-- `Dimmer.enable`: no-op when already enabled, otherwise init, show the
mode's elements, reset position state to the viewport center / full width,
reposition in banner mode, register listeners and start the loop. -/
def dimmerEnable (innerW innerH : ℚ) (s : DimmerState) : DimmerState :=
  if s.enabled then s
  else
    let s1 := dimmerInit s
    let s2 := { s1 with enabled := true }
    let s3 :=
      if s2.settings.focusedBox then
        { s2 with
          focusBox := s2.focusBox.map fun (f : OverlayStyle) =>
            { f with display := "block", opacity := 0 },
          isOverBlock := false }
      else
        { s2 with
          topOverlay := s2.topOverlay.map fun (t : OverlayStyle) =>
            { t with display := "block" },
          bottomOverlay := s2.bottomOverlay.map fun (b : OverlayStyle) =>
            { b with display := "block" } }
    let s4 := { s3 with currentY := innerH / 2, targetY := innerH / 2,
                        currentLeft := 0, targetLeft := 0,
                        currentWidth := innerW, targetWidth := innerW }
    let s5 := if !s4.settings.focusedBox then dimmerUpdatePosition innerH s4 else s4
    let s6 := { s5 with isScrolling := false,
                        mouseListener := true, scrollListener := true }
    dimmerStartAnimation innerH s6

/-- `Dimmer.disable`: no-op when already disabled, otherwise hide every
existing element, deregister listeners and cancel the pending frame. -/
def dimmerDisable (s : DimmerState) : DimmerState :=
  if !s.enabled then s
  else
    dimmerStopAnimation
      { s with enabled := false,
               topOverlay := s.topOverlay.map fun (t : OverlayStyle) =>
                 { t with display := "none" },
               bottomOverlay := s.bottomOverlay.map fun (b : OverlayStyle) =>
                 { b with display := "none" },
               focusBox := s.focusBox.map fun (f : OverlayStyle) =>
                 { f with display := "none" },
               mouseListener := false, scrollListener := false,
               isScrolling := false }

/-- `Dimmer.toggle`: flip and return the new `enabled`. -/
def dimmerToggle (innerW innerH : ℚ) (s : DimmerState) : DimmerState × Bool :=
  let s' := if s.enabled then dimmerDisable s else dimmerEnable innerW innerH s
  (s', s'.enabled)

/-! Helper lemmas: none of the animation and positioning helpers touch the
`enabled` flag. -/

theorem pacerAnimateSmart_enabled (s : PacerState) :
    (pacerAnimateSmart s).enabled = s.enabled := by
  unfold pacerAnimateSmart
  split
  · rfl
  · split <;> rfl

theorem pacerAnimate_enabled (s : PacerState) :
    (pacerAnimate s).enabled = s.enabled := by
  unfold pacerAnimate
  split <;> rfl

theorem pacerStartSmartAnimation_enabled (s : PacerState) :
    (pacerStartSmartAnimation s).enabled = s.enabled := by
  unfold pacerStartSmartAnimation
  split
  · rfl
  · exact pacerAnimateSmart_enabled s

theorem pacerStartAnimation_enabled (s : PacerState) :
    (pacerStartAnimation s).enabled = s.enabled := by
  unfold pacerStartAnimation
  split
  · rfl
  · exact pacerAnimate_enabled s

theorem pacerEnable_enabled (s : PacerState) (h : s.enabled = false) :
    (pacerEnable s).enabled = true := by
  simp only [pacerEnable, h, Bool.false_eq_true, if_false]
  split
  · rw [pacerStartSmartAnimation_enabled]
  · split
    · rw [pacerStartAnimation_enabled]
    · rfl

theorem pacerDisable_enabled (s : PacerState) (h : s.enabled = true) :
    (pacerDisable s).enabled = false := by
  unfold pacerDisable
  rw [if_neg (by simp [h]), pacerStopAnimation_enabled]

theorem pacerToggle_enabled (s : PacerState) :
    (pacerToggle s).1.enabled = !s.enabled := by
  unfold pacerToggle
  cases hs : s.enabled with
  | false => simpa [hs] using pacerEnable_enabled s hs
  | true => simpa [hs] using pacerDisable_enabled s hs

theorem dimmerUpdateBanner_enabled (innerH : ℚ) (s : DimmerState) :
    (dimmerUpdateBanner innerH s).enabled = s.enabled := by
  unfold dimmerUpdateBanner
  split <;> rfl

theorem dimmerUpdateFocusBox_enabled (s : DimmerState) :
    (dimmerUpdateFocusBox s).enabled = s.enabled := by
  unfold dimmerUpdateFocusBox
  split <;> rfl

theorem dimmerUpdatePosition_enabled (innerH : ℚ) (s : DimmerState) :
    (dimmerUpdatePosition innerH s).enabled = s.enabled := by
  unfold dimmerUpdatePosition
  split
  · exact dimmerUpdateFocusBox_enabled s
  · exact dimmerUpdateBanner_enabled innerH s

theorem dimmerAnimate_enabled (innerH : ℚ) (s : DimmerState) :
    (dimmerAnimate innerH s).enabled = s.enabled := by
  simp only [dimmerAnimate]
  split
  · rfl
  · split <;> simp [dimmerUpdatePosition_enabled]

theorem dimmerStartAnimation_enabled (innerH : ℚ) (s : DimmerState) :
    (dimmerStartAnimation innerH s).enabled = s.enabled := by
  unfold dimmerStartAnimation
  split
  · rfl
  · exact dimmerAnimate_enabled innerH s

theorem dimmerStopAnimation_enabled (s : DimmerState) :
    (dimmerStopAnimation s).enabled = s.enabled := by
  unfold dimmerStopAnimation
  split <;> rfl

theorem dimmerInit_enabled (s : DimmerState) :
    (dimmerInit s).enabled = s.enabled := by
  unfold dimmerInit
  split <;> split <;> rfl

theorem dimmerEnable_enabled (innerW innerH : ℚ) (s : DimmerState)
    (h : s.enabled = false) :
    (dimmerEnable innerW innerH s).enabled = true := by
  simp only [dimmerEnable, h, Bool.false_eq_true, if_false,
    dimmerStartAnimation_enabled]
  split <;> split <;> simp_all [dimmerUpdatePosition_enabled]

theorem dimmerDisable_enabled (s : DimmerState) (h : s.enabled = true) :
    (dimmerDisable s).enabled = false := by
  unfold dimmerDisable
  rw [if_neg (by simp [h]), dimmerStopAnimation_enabled]

theorem dimmerToggle_enabled (innerW innerH : ℚ) (s : DimmerState) :
    (dimmerToggle innerW innerH s).1.enabled = !s.enabled := by
  unfold dimmerToggle
  cases hs : s.enabled with
  | false => simpa [hs] using dimmerEnable_enabled innerW innerH s hs
  | true => simpa [hs] using dimmerDisable_enabled s hs

/-- C10: for both the Pacer and the Dimmer, `enable()` on an enabled
instance and `disable()` on a disabled instance return the state
completely unchanged (so listeners and animation loops are never
registered twice), and `toggle()` flips the `enabled` flag and returns
its new value, so two consecutive `toggle()` calls restore the original
enabled state. -/
theorem lifecycle_toggle (innerW innerH : ℚ) (s : PacerState) (d : DimmerState) :
    (s.enabled = true → pacerEnable s = s) ∧
    (s.enabled = false → pacerDisable s = s) ∧
    ((pacerToggle s).2 = (pacerToggle s).1.enabled ∧
      (pacerToggle s).1.enabled = !s.enabled ∧
      (pacerToggle (pacerToggle s).1).1.enabled = s.enabled) ∧
    (d.enabled = true → dimmerEnable innerW innerH d = d) ∧
    (d.enabled = false → dimmerDisable d = d) ∧
    ((dimmerToggle innerW innerH d).2 = (dimmerToggle innerW innerH d).1.enabled ∧
      (dimmerToggle innerW innerH d).1.enabled = !d.enabled ∧
      (dimmerToggle innerW innerH
        (dimmerToggle innerW innerH d).1).1.enabled = d.enabled) := by
  refine ⟨?_, ?_, ⟨rfl, pacerToggle_enabled s, ?_⟩, ?_, ?_,
    ⟨rfl, dimmerToggle_enabled innerW innerH d, ?_⟩⟩
  · intro h
    unfold pacerEnable
    rw [if_pos h]
  · intro h
    unfold pacerDisable
    rw [if_pos (by simp [h])]
  · rw [pacerToggle_enabled, pacerToggle_enabled, Bool.not_not]
  · intro h
    unfold dimmerEnable
    rw [if_pos h]
  · intro h
    unfold dimmerDisable
    rw [if_pos (by simp [h])]
  · rw [dimmerToggle_enabled, dimmerToggle_enabled, Bool.not_not]

/-- A concrete enabled banner-mode dimmer. -/
def sampleDimmerOn : DimmerState :=
  ⟨⟨7 / 10, 60, true, false⟩, true, some ⟨"block", 7 / 10, 0, 0, 0, 100⟩,
    some ⟨"block", 7 / 10, 0, 0, 0, 100⟩, none, 300, 300, 0, 0, 800, 800,
    false, false, true, true, true⟩

/-- A concrete disabled dimmer. -/
def sampleDimmerOff : DimmerState :=
  { sampleDimmerOn with enabled := false, mouseListener := false,
                        scrollListener := false, animPending := false }

/-- C10 witness: the no-op and toggle facts instantiated on concrete
enabled and disabled pacer and dimmer states. -/
theorem lifecycle_toggle_witness :
    pacerEnable samplePacerOn = samplePacerOn ∧
    pacerDisable samplePacerOff = samplePacerOff ∧
    (pacerToggle samplePacerOn).1.enabled = !samplePacerOn.enabled ∧
    dimmerEnable 800 600 sampleDimmerOn = sampleDimmerOn ∧
    dimmerDisable sampleDimmerOff = sampleDimmerOff ∧
    (dimmerToggle 800 600 sampleDimmerOff).1.enabled = !sampleDimmerOff.enabled :=
  ⟨(lifecycle_toggle 800 600 samplePacerOn sampleDimmerOn).1 rfl,
    (lifecycle_toggle 800 600 samplePacerOff sampleDimmerOff).2.1 rfl,
    (lifecycle_toggle 800 600 samplePacerOn sampleDimmerOn).2.2.1.2.1,
    (lifecycle_toggle 800 600 samplePacerOn sampleDimmerOn).2.2.2.1 rfl,
    (lifecycle_toggle 800 600 samplePacerOff sampleDimmerOff).2.2.2.2.1 rfl,
    (lifecycle_toggle 800 600 samplePacerOff sampleDimmerOff).2.2.2.2.2.2.1⟩

end PrismPacer
